import Mathlib

/-!  Verification of the Telegram file-store bot (`src/bot.py`).

This file gives a shallow embedding of the data model and of the handlers of
`bot.py`, and proves the specification claims about them.  MongoDB
collections are modelled as association lists from the string `_id` key to
the stored document: `insert_one` is modelled by consing, `delete_one` by
erasing the matching key.  External Telegram API calls are modelled by
explicit oracles passed to the embedded functions: each oracle value
describes what the platform call would return (or that it would raise).  -/

namespace FileBot

/-- Status of a chat member as reported by the chat platform
(the `member.status` value read in `is_user_member_all_channels`). -/
inductive MemberStatus
  | creator
  | administrator
  | member
  | restricted
  | left
  | kicked
deriving DecidableEq, Repr

/-- Outcome of the per-channel lookup performed by
`is_user_member_all_channels` (bot.py lines 112-132) for one channel:
`getChatErr` models `client.get_chat` raising (chat not found, timeout, any
API error); `usernameMismatch` models the chat being found but
`chat.username` missing or different from the queried name, in which case
the code skips the membership check entirely; `statusIs s` models a
successful `get_chat_member` call returning status `s`; `memberErr` models
`get_chat_member` raising (`UserNotParticipant` or any other exception). -/
inductive ChanResult
  | getChatErr
  | usernameMismatch
  | statusIs (s : MemberStatus)
  | memberErr
deriving DecidableEq, Repr

/-- A membership oracle: for the requesting user, the outcome of the
per-channel platform lookup, abstracting the `get_chat` and
`get_chat_member` calls of `is_user_member_all_channels`. -/
abbrev Oracle := String → ChanResult

/-- Whether `is_user_member_all_channels` appends the channel to
`missing_channels`, given the lookup outcome for that channel: statuses
`kicked` and `left` count as missing, `UserNotParticipant` and every other
exception count as missing, and a username mismatch is silently skipped
(treated as satisfied) — bot.py lines 117-131. -/
def channel_missing : ChanResult → Bool
  | .statusIs .kicked => true
  | .statusIs .left => true
  | .statusIs _ => false
  | .usernameMismatch => false
  | .getChatErr => true
  | .memberErr => true

/-- `is_user_member_all_channels` (bot.py lines 112-132): the deduplicated
list of queried channels whose lookup marks the user as missing.  The code
returns `list(set(missing_channels))`; the set is modelled by
`List.dedup`. -/
def is_user_member_all_channels (oracle : Oracle) (channels : List String) :
    List String :=
  (channels.filter fun c => channel_missing (oracle c)).dedup

/-- A document of the `db.files` collection, as inserted by `file_handler`
(bot.py lines 522-530). -/
structure FileRecord where
  message_id : Nat
  user_id : Int
  file_name : String
  file_type : String
  force_channel : Option String
  created_at : Nat
deriving DecidableEq, Repr

/-- A document of the `db.multi_files` collection, as inserted by
`done_handler` (bot.py lines 680-687). -/
structure MultiRecord where
  message_ids : List Nat
  user_id : Int
  file_name : String
  force_channel : Option String
  created_at : Nat
deriving DecidableEq, Repr

/-- Resolution outcome of the deep-link `/start token` flow: the token is
unknown, or the user is denied with the list of missing gate channels, or
the user is allowed and receives the listed archive message ids. -/
inductive Outcome
  | NotFound
  | Denied (missing : List String)
  | Allowed (items : List Nat)
deriving DecidableEq, Repr

/-- The `force_channels_for_file` computation of `start_handler`
(bot.py lines 232-236): the file-specific gate channel is taken from the
single-file record when that record exists and carries one, otherwise from
the bundle record when that one exists and carries one. -/
def force_channels_for_file (fr : Option FileRecord) (mr : Option MultiRecord) :
    List String :=
  match fr.bind (fun r => r.force_channel) with
  | some c => [c]
  | none =>
    match mr.bind (fun m => m.force_channel) with
    | some c => [c]
    | none => []

/-- The channel list built from an optional record-specific channel, used to
state the claims about the gate set. -/
def optChannel : Option String → List String
  | some c => [c]
  | none => []

/-- The decision logic of `start_handler` once both collection lookups are
done (bot.py lines 228-282): build the gate set from the file-specific
channel and the global `FORCE_CHANNELS` (Python builds it as
`list(set(...))`, modelled by `List.dedup`), compute the missing channels,
and produce the outcome.  Membership is checked before the records are
inspected for delivery, exactly as in the code. -/
def outcomeOf (FORCE : List String) (oracle : Oracle)
    (fr : Option FileRecord) (mr : Option MultiRecord) : Outcome :=
  let gate := (force_channels_for_file fr mr ++ FORCE).dedup
  let missing := is_user_member_all_channels oracle gate
  if missing.isEmpty then
    match fr with
    | some r => .Allowed [r.message_id]
    | none =>
      match mr with
      | some m => .Allowed m.message_ids
      | none => .NotFound
  else .Denied missing

/-- The two content collections of the database. -/
structure Store where
  files : List (String × FileRecord)
  multi_files : List (String × MultiRecord)
deriving DecidableEq, Repr

/-- `resolve`: the resolution phase of `start_handler` (bot.py lines
225-282) as a function of the store, the global force channels and the
membership oracle of the requesting user. -/
def resolve (s : Store) (FORCE : List String) (oracle : Oracle)
    (token : String) : Outcome :=
  outcomeOf FORCE oracle (s.files.lookup token) (s.multi_files.lookup token)

/-- The `find_one` read on `db.files`: returns the document and the store it
leaves behind. -/
def findOneFile (s : Store) (token : String) : Option FileRecord × Store :=
  (s.files.lookup token, s)

/-- The `find_one` read on `db.multi_files`. -/
def findOneMulti (s : Store) (token : String) : Option MultiRecord × Store :=
  (s.multi_files.lookup token, s)

/-- State-passing form of the resolution phase of `start_handler`, threading
the store through the two `find_one` reads exactly as the handler performs
them; the handler issues no write to either content collection while
resolving. -/
def resolveSt (FORCE : List String) (oracle : Oracle) (s : Store)
    (token : String) : Outcome × Store :=
  let p1 := findOneFile s token
  let p2 := findOneMulti p1.2 token
  (outcomeOf FORCE oracle p1.1 p2.1, p2.2)

/-- Result of one `client.copy_message` from the archive channel to the
requesting user inside the bundle-delivery loop of `start_handler`:
`some id` is the id of the newly sent message on success, `none` models the
call raising an exception. -/
abbrev CopyResult := Nat → Option Nat

/-- The bundle-delivery loop of `start_handler` (bot.py lines 264-280):
every stored message id is attempted in order; a failing copy is logged and
the loop continues; the ids of the messages actually sent are collected in
order for auto-delete scheduling.  The first component lists the message ids
attempted (in attempt order), the second the sent message ids collected. -/
def deliver (copyRes : CopyResult) : List Nat → List Nat × List Nat
  | [] => ([], [])
  | m :: rest =>
    let p := deliver copyRes rest
    match copyRes m with
    | some sent => (m :: p.1, sent :: p.2)
    | none => (m :: p.1, p.2)

/-- The alphabet of `generate_random_string`:
`string.ascii_lowercase + string.digits` (bot.py line 91). -/
def alphabet : List Char := "abcdefghijklmnopqrstuvwxyz0123456789".toList

/-- `generate_random_string` (bot.py lines 89-91): `k` independent uniform
choices from the alphabet; the randomness of `random.choices` is abstracted
by the index function `pick`.  The handlers call it with `k = 8` (the
default `length=8`). -/
def generate_random_string (pick : Nat → Fin alphabet.length) (k : Nat) :
    String :=
  String.mk ((List.range k).map fun i => alphabet.get (pick i))

/-- The retry loop of `get_unique_id` (bot.py lines 93-101): `fuel`
remaining attempts, `i` the index of the next candidate drawn from the
generation stream `gen`; `mem t = true` models `collection.find_one`
finding an existing document with `_id = t`.  The result `none` models the
exception raised after the attempts are exhausted. -/
def get_unique_id_aux (gen : Nat → String) (mem : String → Bool) :
    Nat → Nat → Option String
  | 0, _ => none
  | fuel + 1, i =>
    if mem (gen i) then get_unique_id_aux gen mem fuel (i + 1)
    else some (gen i)

/-- `get_unique_id` (bot.py lines 93-101): up to 10 attempts against the
existence check of the one collection it is given. -/
def get_unique_id (gen : Nat → String) (mem : String → Bool) : Option String :=
  get_unique_id_aux gen mem 10 0

/-- The `state` field of the per-user `temp_link` document in
`db.settings`. -/
inductive SState
  | single_link
  | multi_link
deriving DecidableEq, Repr

/-- The per-user `temp_link` document of `db.settings`, written by
`create_link_handler`, `set_thumbnail_handler` and `multi_link_handler` and
consumed by `file_handler` and `done_handler`.  (The redundant
`current_count` counter kept by the bundle branch of `file_handler` is not
modelled; it is derived feedback text only.) -/
structure Session where
  state : SState
  force_channel : Option String
  file_name : Option String
  thumbnail_id : Option String
  message_ids : List Nat
deriving DecidableEq, Repr

/-- The `bot_mode` setting (`get_bot_mode`): `priv` stands for the string
value `"private"` of the code (a Lean keyword). -/
inductive Mode
  | public
  | priv
deriving DecidableEq, Repr

/-- The mutable state touched by the ingestion handlers: the upload mode
(`db.settings` key `bot_mode`), the two content collections, the per-user
`temp_link` session documents (keyed by user id, unique per user), and the
sequence of message ids copied into the archive `LOG_CHANNEL`, in copy
order. -/
structure BotState where
  mode : Mode
  files : List (String × FileRecord)
  multi_files : List (String × MultiRecord)
  sessions : List (Int × Session)
  archive : List Nat
deriving DecidableEq, Repr

/-- `update_one` with `upsert` on the session of one user: the `_id` key of
`db.settings` is unique, so replacing every entry with that key models the
update. -/
def updateSession (ss : List (Int × Session)) (uid : Int) (s : Session) :
    List (Int × Session) :=
  ss.map fun kv => if kv.1 == uid then (kv.1, s) else kv

/-- `delete_one` on the session of one user: the `_id` key of `db.settings`
is unique, so removing every entry with that key models the deletion. -/
def deleteSession (ss : List (Int × Session)) (uid : Int) :
    List (Int × Session) :=
  ss.filter fun kv => kv.1 != uid

/-- User-visible outcome of `file_handler` (bot.py lines 442-573). -/
inductive FHResult
  | refusedPrivateMode
  | tooLarge
  | addedToBundle (count : Nat)
  | errored
  | created (token : String)
deriving DecidableEq, Repr

/-- The single-file branch of `file_handler` (bot.py lines 478-573): copy
the message to the archive channel (`copyArch msgId`, `none` modelling the
call raising, in which case the `except` branch reports an error and nothing
else happens), mint a token against `db.files`, insert the record, then
delete the temp session of the uploader.  The custom name applies whenever
the session carries one; the per-file force channel applies only when the
session state is `single_link` (bot.py lines 516-519).  When token minting
raises, the archive copy has already happened but no record is inserted and
the session is kept (the exception jumps to the `except` branch). -/
def file_handler_single (uploader : Int) (gen : Nat → String)
    (copyArch : Nat → Option Nat) (msgId : Nat) (origName : String)
    (origType : String) (now : Nat) (user_state : Option Session)
    (st : BotState) : FHResult × BotState :=
  match copyArch msgId with
  | none => (.errored, st)
  | some archId =>
    let st1 := { st with archive := st.archive ++ [archId] }
    match get_unique_id gen (fun t => (st1.files.lookup t).isSome) with
    | none => (.errored, st1)
    | some tok =>
      let fname :=
        match user_state.bind (fun s => s.file_name) with
        | some n => n
        | none => origName
      let fchan :=
        match user_state with
        | some s => if s.state = .single_link then s.force_channel else none
        | none => none
      let doc : FileRecord :=
        { message_id := archId, user_id := uploader, file_name := fname,
          file_type := origType, force_channel := fchan, created_at := now }
      (.created tok,
       { st1 with files := (tok, doc) :: st1.files,
                  sessions := deleteSession st1.sessions uploader })

/-- `file_handler` (bot.py lines 442-573): the mode gate comes first (refuse
when the mode is private and the uploader is not an admin, before any side
effect); then, when the uploader has a `multi_link` session, the message id
is appended to the session (subject to the 2 GB guard, `fileTooLarge`);
otherwise the single-file path runs.  `origName` and `origType` stand for
the name and type derived from the message content (bot.py lines
500-513). -/
def file_handler (uploader : Int) (isAdmin : Bool) (gen : Nat → String)
    (copyArch : Nat → Option Nat) (msgId : Nat) (fileTooLarge : Bool)
    (origName : String) (origType : String) (now : Nat) (st : BotState) :
    FHResult × BotState :=
  if st.mode = .priv ∧ isAdmin = false then (.refusedPrivateMode, st)
  else
    match st.sessions.lookup uploader with
    | some sess =>
      if sess.state = .multi_link then
        if fileTooLarge then (.tooLarge, st)
        else
          let newSess := { sess with message_ids := sess.message_ids ++ [msgId] }
          (.addedToBundle (sess.message_ids.length + 1),
           { st with sessions := updateSession st.sessions uploader newSess })
      else
        file_handler_single uploader gen copyArch msgId origName origType now
          (some sess) st
    | none =>
      file_handler_single uploader gen copyArch msgId origName origType now
        none st

/-- The default bundle title used by `done_handler` when the session carries
no custom name. -/
def defaultBundleName (n : Nat) : String :=
  "Bundle of " ++ toString n ++ " Files"

/-- User-visible outcome of `done_handler` (bot.py lines 637-732). -/
inductive DoneResult
  | notInMultiMode
  | emptyBundle
  | errored
  | bundleCreated (token : String)
deriving DecidableEq, Repr

/-- `done_handler` (bot.py lines 637-732): note that, unlike `file_handler`,
this handler consults neither `get_bot_mode` nor the admin list — it takes no
mode or admin input because the code reads none.  When the uploader has a
`multi_link` session: an empty collected list is refused before any side
effect; otherwise every collected message id is copied to the archive in
order (`copyArch`, a failing copy is logged and skipped), a token is minted
against `db.multi_files` only, the bundle record is inserted with the
successfully archived ids in order, and the session is deleted.  When
minting raises, the copies have already happened but no record is inserted
and the session is kept. -/
def done_handler (uploader : Int) (gen : Nat → String)
    (copyArch : Nat → Option Nat) (now : Nat) (st : BotState) :
    DoneResult × BotState :=
  match st.sessions.lookup uploader with
  | some sess =>
    if sess.state = .multi_link then
      if sess.message_ids.isEmpty then (.emptyBundle, st)
      else
        let forwarded := sess.message_ids.filterMap copyArch
        let st1 := { st with archive := st.archive ++ forwarded }
        match get_unique_id gen (fun t => (st1.multi_files.lookup t).isSome) with
        | none => (.errored, st1)
        | some tok =>
          let fname :=
            match sess.file_name with
            | some n => n
            | none => defaultBundleName forwarded.length
          let doc : MultiRecord :=
            { message_ids := forwarded, user_id := uploader,
              file_name := fname, force_channel := sess.force_channel,
              created_at := now }
          (.bundleCreated tok,
           { st1 with multi_files := (tok, doc) :: st1.multi_files,
                      sessions := deleteSession st1.sessions uploader })
    else (.notInMultiMode, st)
  | none => (.notInMultiMode, st)

/-- Result of the `delete_messages` call on the archive channel inside
`confirm_delete_callback` (bot.py lines 1096-1135): success, an exception
whose text contains `MESSAGE_DELETE_FORBIDDEN` or `MESSAGE_NOT_FOUND` (the
database record is still removed), or any other exception (the record is
kept). -/
inductive TgDel
  | ok
  | errForbiddenOrNotFound
  | errOther
deriving DecidableEq, Repr

/-- User-visible outcome of `confirm_delete_callback`. -/
inductive DelResult
  | notFoundOrNoPermission
  | deleted
  | upstreamError
deriving DecidableEq, Repr

/-- `confirm_delete_callback` (bot.py lines 1079-1135), generic over the
record type of the chosen collection (`db.files` or `db.multi_files`):
the lookup filter is `{"_id": token, "user_id": requester}`, so a record
owned by someone else behaves exactly like a missing one and nothing is
deleted; when the record is found, the archived messages are deleted
(`tg` describing the platform call), and the database record is removed
unless the platform call failed with an unexpected error. -/
def confirmDelete {α : Type} (owner_of : α → Int) (coll : List (String × α))
    (token : String) (requester : Int) (tg : TgDel) :
    DelResult × List (String × α) :=
  match coll.lookup token with
  | none => (.notFoundOrNoPermission, coll)
  | some r =>
    if owner_of r = requester then
      match tg with
      | .errOther => (.upstreamError, coll)
      | _ => (.deleted, coll.eraseP (fun kv => kv.1 == token))
    else (.notFoundOrNoPermission, coll)

/-! Concrete inputs used by the witnesses and counterexamples below. -/

/-- An oracle reporting plain membership in every channel. -/
def oracleMember : Oracle := fun _ => .statusIs .member

/-- An oracle whose every lookup raises. -/
def oracleErr : Oracle := fun _ => .memberErr

/-- A single-file record gated by channel `chA`. -/
def recA : FileRecord :=
  { message_id := 11, user_id := 1, file_name := "f", file_type := "document",
    force_channel := some "chA", created_at := 0 }

/-- A store holding only `recA` under token `tok1`. -/
def storeA : Store := { files := [("tok1", recA)], multi_files := [] }

/-- The empty store. -/
def storeEmpty : Store := { files := [], multi_files := [] }

/-- A bundle session of user 2 with one collected message. -/
def sessB : Session :=
  { state := .multi_link, force_channel := none, file_name := none,
    thumbnail_id := none, message_ids := [5] }

/-- A bundle session with no collected messages. -/
def sessEmpty : Session :=
  { state := .multi_link, force_channel := none, file_name := none,
    thumbnail_id := none, message_ids := [] }

/-- Private-mode state in which user 2 holds the bundle session `sessB`. -/
def stPriv : BotState :=
  { mode := .priv, files := [], multi_files := [], sessions := [(2, sessB)],
    archive := [] }

/-- Public-mode state in which user 2 holds the bundle session `sessB`. -/
def stPub : BotState :=
  { mode := .public, files := [], multi_files := [], sessions := [(2, sessB)],
    archive := [] }

/-- Public-mode state with an empty bundle session for user 2. -/
def stPubEmptySess : BotState :=
  { mode := .public, files := [], multi_files := [],
    sessions := [(2, sessEmpty)], archive := [] }

/-- A generation stream that always proposes the same token. -/
def genA : Nat → String := fun _ => "aaaaaaaa"

/-- An archival copy oracle that always succeeds, producing id `m + 100`
for message `m`. -/
def copyOk : Nat → Option Nat := fun m => some (m + 100)

/-- The constant index-0 randomness for `generate_random_string`. -/
def pickZero : Nat → Fin alphabet.length := fun _ => ⟨0, by decide⟩

/-- An existence check that never finds the candidate. -/
def memNone : String → Bool := fun _ => false

/-- Public-mode state with no session at all. -/
def stNoSess : BotState :=
  { mode := .public, files := [], multi_files := [], sessions := [],
    archive := [] }

/-! Helper lemmas. -/

/-- Membership in the missing-channel list returned by
`is_user_member_all_channels`. -/
theorem mem_is_user_member_all_channels (oracle : Oracle)
    (channels : List String) (c : String) :
    c ∈ is_user_member_all_channels oracle channels ↔
      c ∈ channels ∧ channel_missing (oracle c) = true := by
  simp [is_user_member_all_channels, List.mem_dedup, List.mem_filter]

/-- The file-specific gate of a committed single-file record. -/
theorem force_channels_for_file_single (r : FileRecord) :
    force_channels_for_file (some r) none = optChannel r.force_channel := by
  cases h : r.force_channel <;> simp [force_channels_for_file, optChannel, h]

/-- The file-specific gate of a committed bundle record. -/
theorem force_channels_for_file_multi (m : MultiRecord) :
    force_channels_for_file none (some m) = optChannel m.force_channel := by
  cases h : m.force_channel <;> simp [force_channels_for_file, optChannel, h]

/-- The minting loop only returns candidates that pass the existence
check. -/
theorem get_unique_id_aux_not_mem (gen : Nat → String) (mem : String → Bool) :
    ∀ fuel i t, get_unique_id_aux gen mem fuel i = some t → mem t = false := by
  intro fuel
  induction fuel with
  | zero => intro i t h; simp [get_unique_id_aux] at h
  | succ n ih =>
    intro i t h
    by_cases hm : mem (gen i) = true
    · rw [get_unique_id_aux, if_pos hm] at h
      exact ih _ _ h
    · rw [get_unique_id_aux, if_neg hm] at h
      injection h with h2
      subst h2
      simp only [Bool.not_eq_true] at hm
      exact hm

/-- When every candidate in the window collides, the minting loop runs out
of fuel. -/
theorem get_unique_id_aux_exhaust (gen : Nat → String) (mem : String → Bool) :
    ∀ fuel i, (∀ j, j < fuel → mem (gen (i + j)) = true) →
      get_unique_id_aux gen mem fuel i = none := by
  intro fuel
  induction fuel with
  | zero => intro i _; rfl
  | succ n ih =>
    intro i h
    have h0 : mem (gen i) = true := by simpa using h 0 (Nat.succ_pos n)
    rw [get_unique_id_aux, if_pos h0]
    refine ih (i + 1) (fun j hj => ?_)
    have e : i + 1 + j = i + (j + 1) := by omega
    rw [e]
    exact h (j + 1) (Nat.succ_lt_succ hj)

/-- Looking up a user after the deletion of its session finds nothing. -/
theorem lookup_deleteSession (ss : List (Int × Session)) (uid : Int) :
    (deleteSession ss uid).lookup uid = none := by
  induction ss with
  | nil => rfl
  | cons kv rest ih =>
    obtain ⟨k, v⟩ := kv
    by_cases h : (k == uid) = true
    · have he : deleteSession ((k, v) :: rest) uid = deleteSession rest uid := by
        simp [deleteSession, List.filter_cons, bne, h]
      rw [he]
      exact ih
    · have he : deleteSession ((k, v) :: rest) uid =
          (k, v) :: deleteSession rest uid := by
        simp [deleteSession, List.filter_cons, bne, h]
      have hk : k ≠ uid := by simpa [beq_iff_eq] using h
      have hne : (uid == k) = false := beq_eq_false_iff_ne.mpr (Ne.symm hk)
      rw [he]
      simp only [List.lookup, hne]
      exact ih

/-! Claim theorems. -/

/-- C1: for every committed record (a token held by exactly one of the two
collections), the resolution phase of `start_handler` computes the gate as
the union of the global `FORCE_CHANNELS` and the force channel of the
record when present; the missing list contains exactly the gate channels
whose lookup marks the user as not a member; when it is empty the outcome
is Allowed with the ordered items of the record, otherwise Denied with the
missing channels. -/
theorem resolve_gate (s : Store) (FORCE : List String) (oracle : Oracle)
    (token : String) (items : List Nat) (rfc : Option String)
    (h : (∃ r, s.files.lookup token = some r ∧
            s.multi_files.lookup token = none ∧
            items = [r.message_id] ∧ rfc = r.force_channel) ∨
         (∃ m, s.files.lookup token = none ∧
            s.multi_files.lookup token = some m ∧
            items = m.message_ids ∧ rfc = m.force_channel)) :
    (∀ c, c ∈ is_user_member_all_channels oracle
          ((optChannel rfc ++ FORCE).dedup) ↔
        c ∈ (optChannel rfc ++ FORCE).dedup ∧
          channel_missing (oracle c) = true) ∧
    (is_user_member_all_channels oracle ((optChannel rfc ++ FORCE).dedup) = [] →
        resolve s FORCE oracle token = .Allowed items) ∧
    (is_user_member_all_channels oracle ((optChannel rfc ++ FORCE).dedup) ≠ [] →
        resolve s FORCE oracle token =
          .Denied (is_user_member_all_channels oracle
            ((optChannel rfc ++ FORCE).dedup))) := by
  refine ⟨fun c => mem_is_user_member_all_channels _ _ _, ?_, ?_⟩ <;>
    rcases h with ⟨r, hf, hm, hi, hc⟩ | ⟨m, hf, hm, hi, hc⟩ <;>
      subst hi <;> subst hc <;>
        intro hmiss <;>
          simp only [resolve, hf, hm, outcomeOf, force_channels_for_file_single,
            force_channels_for_file_multi]
  · rw [hmiss]; rfl
  · rw [hmiss]; rfl
  · rcases hx : is_user_member_all_channels oracle
        ((optChannel r.force_channel ++ FORCE).dedup) with _ | ⟨a, as⟩
    · exact absurd hx hmiss
    · rfl
  · rcases hx : is_user_member_all_channels oracle
        ((optChannel m.force_channel ++ FORCE).dedup) with _ | ⟨a, as⟩
    · exact absurd hx hmiss
    · rfl

/-- Witness for C1: the committed single record `recA` of `storeA`, gated by
`chA` on top of the global `chB`, resolves to Allowed for a user who is a
member everywhere. -/
theorem resolve_gate_witness :
    ((∃ r, storeA.files.lookup "tok1" = some r ∧
        storeA.multi_files.lookup "tok1" = none ∧
        [11] = [r.message_id] ∧ some "chA" = r.force_channel) ∨
     (∃ m, storeA.files.lookup "tok1" = none ∧
        storeA.multi_files.lookup "tok1" = some m ∧
        [11] = m.message_ids ∧ some "chA" = m.force_channel)) ∧
    resolve storeA ["chB"] oracleMember "tok1" = .Allowed [11] := by
  refine ⟨Or.inl ⟨recA, by decide, by decide, by decide, by decide⟩, ?_⟩
  exact (resolve_gate storeA ["chB"] oracleMember "tok1" [11] (some "chA")
    (Or.inl ⟨recA, by decide, by decide, by decide, by decide⟩)).2.1 (by decide)

/-- C2 (amended): for a token held by neither collection, resolution returns
NotFound when the user passes the global gate (the global set is empty or
the user is a member of every global channel); when the user misses a global
channel, the gate check of `start_handler` runs before the not-found check
and returns Denied instead. -/
theorem resolve_never_issued (s : Store) (FORCE : List String)
    (oracle : Oracle) (token : String)
    (h1 : s.files.lookup token = none)
    (h2 : s.multi_files.lookup token = none) :
    (is_user_member_all_channels oracle FORCE.dedup = [] →
        resolve s FORCE oracle token = .NotFound) ∧
    (is_user_member_all_channels oracle FORCE.dedup ≠ [] →
        resolve s FORCE oracle token =
          .Denied (is_user_member_all_channels oracle FORCE.dedup)) := by
  constructor <;> intro hmiss <;>
    simp only [resolve, h1, h2, outcomeOf, force_channels_for_file,
      Option.bind, List.nil_append]
  · rw [hmiss]; rfl
  · rcases hx : is_user_member_all_channels oracle FORCE.dedup with _ | ⟨a, as⟩
    · exact absurd hx hmiss
    · rfl

/-- Witness for C2 (amended): a never-issued token with an empty global gate
resolves to NotFound. -/
theorem resolve_never_issued_witness :
    storeEmpty.files.lookup "zz" = none ∧
    storeEmpty.multi_files.lookup "zz" = none ∧
    resolve storeEmpty [] oracleMember "zz" = .NotFound :=
  ⟨rfl, rfl, (resolve_never_issued storeEmpty [] oracleMember "zz" rfl rfl).1 rfl⟩

/-- Counterexample to C2 as stated: the token `zz` was never issued, yet
with global channel `ch1` and a user whose membership lookup fails,
resolution returns Denied rather than NotFound — the membership gate runs
before the not-found check. -/
theorem resolve_never_issued_cex :
    resolve storeEmpty ["ch1"] oracleErr "zz" = .Denied ["ch1"] ∧
    resolve storeEmpty ["ch1"] oracleErr "zz" ≠ .NotFound := by
  decide

/-- C3: when the platform lookup for a channel raises (`get_chat` failing —
chat not found, timeout, API error — or `get_chat_member` failing), the
channel is reported missing by `is_user_member_all_channels`; consequently a
failing lookup for a channel of the gate set never lets resolution return
Allowed. -/
theorem lookup_failure_fail_closed (s : Store) (FORCE : List String)
    (oracle : Oracle) (token : String) (c : String)
    (hfail : oracle c = .getChatErr ∨ oracle c = .memberErr) :
    (∀ channels, c ∈ channels →
        c ∈ is_user_member_all_channels oracle channels) ∧
    (c ∈ (force_channels_for_file (s.files.lookup token)
            (s.multi_files.lookup token) ++ FORCE).dedup →
        ∀ items, resolve s FORCE oracle token ≠ .Allowed items) := by
  have hm : channel_missing (oracle c) = true := by
    rcases hfail with h | h <;> rw [h] <;> rfl
  constructor
  · intro channels hc
    exact (mem_is_user_member_all_channels oracle channels c).2 ⟨hc, hm⟩
  · intro hcg items
    have hcm : c ∈ is_user_member_all_channels oracle
        ((force_channels_for_file (s.files.lookup token)
          (s.multi_files.lookup token) ++ FORCE).dedup) :=
      (mem_is_user_member_all_channels _ _ _).2 ⟨hcg, hm⟩
    have hne : is_user_member_all_channels oracle
        ((force_channels_for_file (s.files.lookup token)
          (s.multi_files.lookup token) ++ FORCE).dedup) ≠ [] :=
      List.ne_nil_of_mem hcm
    simp only [resolve, outcomeOf]
    rcases hx : is_user_member_all_channels oracle
        ((force_channels_for_file (s.files.lookup token)
          (s.multi_files.lookup token) ++ FORCE).dedup) with _ | ⟨a, as⟩
    · exact absurd hx hne
    · simp

/-- Witness for C3: with a global gate `chB` whose lookup raises, channel
`chB` is reported missing and the committed token `tok1` is not released. -/
theorem lookup_failure_fail_closed_witness :
    (oracleErr "chB" = .getChatErr ∨ oracleErr "chB" = .memberErr) ∧
    "chB" ∈ is_user_member_all_channels oracleErr ["chB"] ∧
    resolve storeA ["chB"] oracleErr "tok1" ≠ .Allowed [11] := by
  have h := lookup_failure_fail_closed storeA ["chB"] oracleErr "tok1" "chB"
    (Or.inr rfl)
  exact ⟨Or.inr rfl, h.1 ["chB"] (by decide), h.2 (by decide) [11]⟩

/-- C4: the bundle-delivery loop of `start_handler` attempts every stored
message id in the stored order even when some copies fail, and collects
exactly the successfully sent message ids, in that same order, for the
auto-delete schedule. -/
theorem deliver_order (copyRes : CopyResult) (items : List Nat) :
    (deliver copyRes items).1 = items ∧
    (deliver copyRes items).2 = items.filterMap copyRes := by
  induction items with
  | nil => exact ⟨rfl, rfl⟩
  | cons m rest ih =>
    simp only [deliver, List.filterMap_cons]
    cases h : copyRes m <;> simp [h, ih.1, ih.2]

/-- C5: the resolution phase of `start_handler` issues no write to the
content collections — running it twice in a row from the same store with the
same membership facts leaves the store unchanged and returns the same
outcome. -/
theorem resolve_idempotent (FORCE : List String) (oracle : Oracle) (s : Store)
    (token : String) :
    (resolveSt FORCE oracle s token).2 = s ∧
    (resolveSt FORCE oracle ((resolveSt FORCE oracle s token).2) token).1 =
      (resolveSt FORCE oracle s token).1 :=
  ⟨rfl, rfl⟩

/-- C6 (amended): `file_handler` — single-file ingestion and bundle-item
collection — refuses a non-admin uploader in private mode before any side
effect: the state (archive, collections, sessions) is returned untouched. -/
theorem file_handler_mode_gate (uploader : Int) (gen : Nat → String)
    (copyArch : Nat → Option Nat) (msgId : Nat) (fileTooLarge : Bool)
    (origName origType : String) (now : Nat) (st : BotState)
    (hmode : st.mode = .priv) :
    file_handler uploader false gen copyArch msgId fileTooLarge origName
      origType now st = (.refusedPrivateMode, st) := by
  simp [file_handler, hmode]

/-- Witness for C6 (amended): a non-admin upload in the private-mode state
`stPriv` is refused with the state unchanged. -/
theorem file_handler_mode_gate_witness :
    stPriv.mode = .priv ∧
    file_handler 3 false genA copyOk 7 false "doc" "document" 0 stPriv =
      (.refusedPrivateMode, stPriv) :=
  ⟨rfl, file_handler_mode_gate 3 genA copyOk 7 false "doc" "document" 0 stPriv
    rfl⟩

/-- Counterexample to C6 as stated: in the private-mode state `stPriv` the
non-admin user 2 finalizes a bundle with `/done`; `done_handler` consults
neither the mode nor the admin list, copies message 5 to the archive and
inserts a bundle record — an ingestion with archival side effects despite
AdminsOnly mode. -/
theorem done_not_mode_gated_cex :
    stPriv.mode = .priv ∧
    (done_handler 2 genA copyOk 0 stPriv).1 = .bundleCreated "aaaaaaaa" ∧
    (done_handler 2 genA copyOk 0 stPriv).2.archive = [105] ∧
    ((done_handler 2 genA copyOk 0 stPriv).2.multi_files.lookup
        "aaaaaaaa").isSome = true := by
  decide

/-- C7: `/done` on a `multi_link` session with no collected items is refused
(EmptyBundle reply) and the whole state — in particular the
`db.multi_files` collection and the archive — is unchanged. -/
theorem done_empty_bundle (uploader : Int) (gen : Nat → String)
    (copyArch : Nat → Option Nat) (now : Nat) (st : BotState) (sess : Session)
    (h1 : st.sessions.lookup uploader = some sess)
    (h2 : sess.state = .multi_link)
    (h3 : sess.message_ids = []) :
    done_handler uploader gen copyArch now st = (.emptyBundle, st) := by
  simp [done_handler, h1, h2, h3]

/-- Witness for C7: finalizing the empty session `sessEmpty` is refused with
the state unchanged. -/
theorem done_empty_bundle_witness :
    stPubEmptySess.sessions.lookup 2 = some sessEmpty ∧
    done_handler 2 genA copyOk 0 stPubEmptySess =
      (.emptyBundle, stPubEmptySess) :=
  ⟨by decide, done_empty_bundle 2 genA copyOk 0 stPubEmptySess sessEmpty
    (by decide) rfl rfl⟩

/-- C8 (amended): `generate_random_string` always returns a string of length
8 over lowercase letters and digits; `get_unique_id` retries up to 10 times
against the existence check of the one collection it is given, never returns
a colliding token for that collection, and fails (raises) when all 10
candidates collide.  Uniqueness only holds per collection: single files and
bundles are checked against different collections (see the
counterexample). -/
theorem token_generation_props (pick : Nat → Fin alphabet.length)
    (gen : Nat → String) (mem : String → Bool) :
    (generate_random_string pick 8).length = 8 ∧
    (∀ c, c ∈ (generate_random_string pick 8).data → c ∈ alphabet) ∧
    (∀ t, get_unique_id gen mem = some t → mem t = false) ∧
    ((∀ i, i < 10 → mem (gen i) = true) → get_unique_id gen mem = none) := by
  refine ⟨?_, ?_, ?_, ?_⟩
  · simp [generate_random_string, String.length]
  · intro c hc
    simp only [generate_random_string, List.mem_map, List.mem_range] at hc
    obtain ⟨i, _, rfl⟩ := hc
    exact alphabet.get_mem _ _
  · intro t ht
    exact get_unique_id_aux_not_mem gen mem 10 0 t ht
  · intro hall
    exact get_unique_id_aux_exhaust gen mem 10 0 (fun j hj => by
      simpa using hall j hj)

/-- Witness for C8 (amended): with constant randomness the generated string
has length 8, and minting against an empty collection returns the first
candidate, which indeed does not collide. -/
theorem token_generation_props_witness :
    (generate_random_string pickZero 8).length = 8 ∧
    get_unique_id genA memNone = some "aaaaaaaa" ∧
    memNone "aaaaaaaa" = false := by
  have h := token_generation_props pickZero genA memNone
  exact ⟨h.1, rfl, h.2.2.1 "aaaaaaaa" rfl⟩

/-- Counterexample to C8 as stated: starting from `stPub`, a single-file
ingestion by user 1 and a bundle finalization by user 2 both succeed and
both receive the token `aaaaaaaa`, because `get_unique_id` checks
`db.files` for the first and `db.multi_files` for the second. -/
theorem token_collision_cex :
    (file_handler 1 true genA copyOk 7 false "doc" "document" 0 stPub).1 =
      .created "aaaaaaaa" ∧
    (done_handler 2 genA copyOk 0
        (file_handler 1 true genA copyOk 7 false "doc" "document" 0
          stPub).2).1 = .bundleCreated "aaaaaaaa" := by
  decide

/-- C9: `confirm_delete_callback` looks records up with the filter
`{"_id": token, "user_id": requester}`, so when the record under `token` is
owned by someone else the call fails (not-found / no-permission reply) and
the collection is returned unchanged — a record is only ever removed by its
owner. -/
theorem delete_requires_ownership {α : Type} (owner_of : α → Int)
    (coll : List (String × α)) (token : String) (requester : Int)
    (tg : TgDel) (r : α)
    (h : coll.lookup token = some r) (hne : owner_of r ≠ requester) :
    confirmDelete owner_of coll token requester tg =
      (.notFoundOrNoPermission, coll) := by
  simp [confirmDelete, h, hne]

/-- Witness for C9: user 9 cannot delete `tok1`, which belongs to user 1;
the collection is unchanged. -/
theorem delete_requires_ownership_witness :
    storeA.files.lookup "tok1" = some recA ∧ recA.user_id ≠ 9 ∧
    confirmDelete (fun r => r.user_id) storeA.files "tok1" 9 .ok =
      (.notFoundOrNoPermission, storeA.files) :=
  ⟨by decide, by decide,
    delete_requires_ownership (fun r => r.user_id) storeA.files "tok1" 9 .ok
      recA (by decide) (by decide)⟩

/-- C10: a successful single-file ingestion deletes the temp session of the
uploader (so a previously set thumbnail, custom name or per-file force
channel applies to at most that one file), and an ingestion that starts with
no session produces a record whose force channel is absent. -/
theorem file_handler_session_lifecycle (uploader : Int) (isAdmin : Bool)
    (gen : Nat → String) (copyArch : Nat → Option Nat) (msgId : Nat)
    (fileTooLarge : Bool) (origName origType : String) (now : Nat)
    (st : BotState) (archId : Nat) (tok : String)
    (hmode : ¬(st.mode = .priv ∧ isAdmin = false))
    (hsess : ∀ sess, st.sessions.lookup uploader = some sess →
        sess.state ≠ .multi_link)
    (hc : copyArch msgId = some archId)
    (hg : get_unique_id gen (fun t => (st.files.lookup t).isSome) = some tok) :
    ∃ doc : FileRecord,
      file_handler uploader isAdmin gen copyArch msgId fileTooLarge origName
          origType now st =
        (.created tok,
         { st with archive := st.archive ++ [archId],
                   files := (tok, doc) :: st.files,
                   sessions := deleteSession st.sessions uploader }) ∧
      (file_handler uploader isAdmin gen copyArch msgId fileTooLarge origName
          origType now st).2.sessions.lookup uploader = none ∧
      (st.sessions.lookup uploader = none → doc.force_channel = none) := by
  cases hs : st.sessions.lookup uploader with
  | none =>
    have heq : file_handler uploader isAdmin gen copyArch msgId fileTooLarge
        origName origType now st =
        (.created tok,
         { st with archive := st.archive ++ [archId],
                   files := (tok,
                     { message_id := archId, user_id := uploader,
                       file_name := origName, file_type := origType,
                       force_channel := none, created_at := now }) :: st.files,
                   sessions := deleteSession st.sessions uploader }) := by
      simp [file_handler, if_neg hmode, hs, file_handler_single, hc, hg]
    refine ⟨_, heq, ?_, fun _ => rfl⟩
    rw [heq]
    exact lookup_deleteSession st.sessions uploader
  | some sess =>
    have hnm : sess.state ≠ .multi_link := hsess sess hs
    have heq : file_handler uploader isAdmin gen copyArch msgId fileTooLarge
        origName origType now st =
        (.created tok,
         { st with archive := st.archive ++ [archId],
                   files := (tok,
                     { message_id := archId, user_id := uploader,
                       file_name := match sess.file_name with
                                    | some n => n
                                    | none => origName,
                       file_type := origType,
                       force_channel := if sess.state = .single_link
                                        then sess.force_channel else none,
                       created_at := now }) :: st.files,
                   sessions := deleteSession st.sessions uploader }) := by
      simp [file_handler, if_neg hmode, hs, hnm, file_handler_single, hc, hg]
    refine ⟨_, heq, ?_, ?_⟩
    · rw [heq]
      exact lookup_deleteSession st.sessions uploader
    · intro h0
      exact absurd h0 (by simp)

/-- Witness for C10: a session-free single ingestion in `stNoSess` succeeds,
leaves no session behind, and the created record has no force channel. -/
theorem file_handler_session_lifecycle_witness :
    stNoSess.sessions.lookup 1 = none ∧
    ∃ doc : FileRecord,
      file_handler 1 true genA copyOk 7 false "doc" "document" 0 stNoSess =
        (.created "aaaaaaaa",
         { stNoSess with archive := stNoSess.archive ++ [107],
                         files := [("aaaaaaaa", doc)],
                         sessions := deleteSession stNoSess.sessions 1 }) ∧
      (file_handler 1 true genA copyOk 7 false "doc" "document" 0
          stNoSess).2.sessions.lookup 1 = none ∧
      (stNoSess.sessions.lookup 1 = none → doc.force_channel = none) := by
  refine ⟨rfl, ?_⟩
  exact file_handler_session_lifecycle 1 true genA copyOk 7 false "doc"
    "document" 0 stNoSess 107 "aaaaaaaa" (by decide)
    (fun sess h => nomatch h) rfl rfl

end FileBot

